import Mathlib

/-!
Verification development for the paper-form conversion service
(Flask app `app.py` + core pipeline `lib/paper_form.py`).

Strings are modelled as `List Char`.  Python's `str.strip()`,
`str.lower()`, slicing, `startswith`/`endswith`, and
`pathlib.Path(...).suffix` are embedded explicitly below.  The model
functions keep the source's names (`clean_json_response`,
`clean_html_response`, `call_claude`, `analyze_form`, `build_json_form`,
`from_image`, `from_url`) where Lean allows.
-/

set_option autoImplicit false

/-- Whitespace set of Python's `str.strip()`:
space, tab, newline, carriage return, vertical tab, form feed. -/
def pyWhitespace (c : Char) : Bool :=
  c = ' ' || c = '\t' || c = '\n' || c = '\r' || c = '\x0b' || c = '\x0c'

/-- Python `text.strip()`: drop leading and trailing whitespace. -/
def pyStrip (s : List Char) : List Char :=
  ((s.dropWhile pyWhitespace).reverse.dropWhile pyWhitespace).reverse

/-- Python `str.lower()`, restricted to the ASCII case mapping
(the filenames and extensions the claims quantify over are ASCII). -/
def pyLower (s : List Char) : List Char :=
  s.map Char.toLower

/-- Source `clean_json_response` (lib/paper_form.py:506-515): strip, drop a
leading "```json" (7 chars) or bare "```" (3 chars), drop a trailing
"```", strip again.  Python `text[7:]`, `text[3:]`, `text[:-3]` become
`drop`/`take`. -/
def clean_json_response (text : List Char) : List Char :=
  let t1 := pyStrip text
  let t2 :=
    if ("```json".toList).isPrefixOf t1 then t1.drop 7
    else if ("```".toList).isPrefixOf t1 then t1.drop 3
    else t1
  let t3 :=
    if ("```".toList).isSuffixOf t2 then t2.take (t2.length - 3) else t2
  pyStrip t3

/-- Source `clean_html_response` (lib/paper_form.py:518-527): identical to
`clean_json_response` except the tagged leading marker is "```html". -/
def clean_html_response (text : List Char) : List Char :=
  let t1 := pyStrip text
  let t2 :=
    if ("```html".toList).isPrefixOf t1 then t1.drop 7
    else if ("```".toList).isPrefixOf t1 then t1.drop 3
    else t1
  let t3 :=
    if ("```".toList).isSuffixOf t2 then t2.take (t2.length - 3) else t2
  pyStrip t3

/-! ### List helper lemmas -/

theorem head?_dropWhile_not {α : Type} (p : α → Bool) :
    ∀ (l : List α) (c : α), (l.dropWhile p).head? = some c → p c = false := by
  intro l
  induction l with
  | nil => intro c h; simp [List.dropWhile] at h
  | cons a as ih =>
    intro c h
    by_cases hp : p a
    · exact ih c (by simpa [List.dropWhile, hp] using h)
    · have : a = c := by
        simpa [List.dropWhile, hp] using h
      subst this
      exact Bool.eq_false_iff.mpr hp

theorem dropWhile_eq_self_of_head {α : Type} (p : α → Bool) (l : List α)
    (h : ∀ c, l.head? = some c → p c = false) : l.dropWhile p = l := by
  cases l with
  | nil => rfl
  | cons a as =>
    have ha : p a = false := h a rfl
    simp [List.dropWhile, ha]

theorem getLast?_dropWhile {α : Type} (p : α → Bool) :
    ∀ (l : List α), l.dropWhile p ≠ [] → (l.dropWhile p).getLast? = l.getLast? := by
  intro l
  induction l with
  | nil => intro h; simp [List.dropWhile] at h
  | cons a as ih =>
    intro h
    by_cases hp : p a
    · have hd : (a :: as).dropWhile p = as.dropWhile p := by
        simp [List.dropWhile, hp]
      rw [hd] at h ⊢
      have has : as ≠ [] := by
        intro e; rw [e] at h; simp [List.dropWhile] at h
      rw [ih h]
      cases as with
      | nil => exact absurd rfl has
      | cons b bs => simp [List.getLast?_cons_cons]
    · simp [List.dropWhile, hp]

theorem getLast?_append_ne {α : Type} (l₁ l₂ : List α) (h : l₂ ≠ []) :
    (l₁ ++ l₂).getLast? = l₂.getLast? := by
  induction l₁ with
  | nil => rfl
  | cons a as ih =>
    cases e : as ++ l₂ with
    | nil =>
      rcases List.append_eq_nil.mp e with ⟨_, h2⟩
      exact absurd h2 h
    | cons b bs =>
      have : (a :: as ++ l₂) = a :: b :: bs := by simp [e]
      rw [this, List.getLast?_cons_cons, ← e, ih]

theorem pyStrip_eq_self (l : List Char)
    (h1 : ∀ c, l.head? = some c → pyWhitespace c = false)
    (h2 : ∀ c, l.getLast? = some c → pyWhitespace c = false) :
    pyStrip l = l := by
  unfold pyStrip
  rw [dropWhile_eq_self_of_head _ _ h1]
  rw [dropWhile_eq_self_of_head]
  · exact l.reverse_reverse
  · intro c hc
    apply h2
    rwa [List.head?_reverse] at hc

theorem pyStrip_getLast?_not (l : List Char) (c : Char)
    (h : (pyStrip l).getLast? = some c) : pyWhitespace c = false := by
  unfold pyStrip at h
  rw [List.getLast?_reverse] at h
  exact head?_dropWhile_not _ _ _ h

theorem pyStrip_head?_not (l : List Char) (c : Char)
    (h : (pyStrip l).head? = some c) : pyWhitespace c = false := by
  unfold pyStrip at h
  rw [List.head?_reverse] at h
  have hne : ((l.dropWhile pyWhitespace).reverse.dropWhile pyWhitespace) ≠ [] := by
    intro e; rw [e] at h; simp at h
  rw [getLast?_dropWhile _ _ hne, List.getLast?_reverse] at h
  exact head?_dropWhile_not _ _ _ h

theorem pyStrip_idem (l : List Char) : pyStrip (pyStrip l) = pyStrip l :=
  pyStrip_eq_self _ (pyStrip_head?_not l) (pyStrip_getLast?_not l)

/-! ### Prefix and suffix helper lemmas -/

theorem isPrefixOf_append_self (l₁ l₂ : List Char) :
    l₁.isPrefixOf (l₁ ++ l₂) = true := by
  induction l₁ with
  | nil => cases l₂ <;> rfl
  | cons a as ih => simp [List.isPrefixOf, ih]

theorem isPrefixOf_of_append : ∀ (l₁ l₂ y : List Char),
    (l₁ ++ l₂).isPrefixOf y = true → l₁.isPrefixOf y = true := by
  intro l₁
  induction l₁ with
  | nil => intro _ y _; cases y <;> rfl
  | cons a as ih =>
    intro l₂ y h
    cases y with
    | nil => simp [List.isPrefixOf] at h
    | cons b bs =>
      simp only [List.cons_append, List.isPrefixOf, Bool.and_eq_true] at h ⊢
      exact ⟨h.1, ih l₂ bs h.2⟩

theorem not_isPrefixOf_of_append (l₁ l₂ y : List Char)
    (h : l₁.isPrefixOf y = false) : (l₁ ++ l₂).isPrefixOf y = false := by
  cases hh : (l₁ ++ l₂).isPrefixOf y with
  | false => rfl
  | true => rw [isPrefixOf_of_append l₁ l₂ y hh] at h; exact h

theorem isSuffixOf_append_self (p f : List Char) :
    f.isSuffixOf (p ++ f) = true := by
  unfold List.isSuffixOf
  rw [List.reverse_append]
  exact isPrefixOf_append_self _ _

/-! ### Pathlib suffix model -/

/-- Split a path string on the separator character.

Used to model `pathlib.PurePath.name`. -/
def path_split (s : List Char) : List (List Char) :=
  s.foldr
    (fun c acc =>
      if c = '/' then [] :: acc
      else
        match acc with
        | [] => [[c]]
        | a :: as => (c :: a) :: as)
    [[]]

/-- Model of `pathlib.Path(s).name`: the last path component, with empty
components and lone "." components dropped (as pathlib's parsing does). -/
def path_name (s : List Char) : List Char :=
  (((path_split s).filter (fun part => part != [] && part != ['.'])).getLast?).getD []

/-- The largest index of '.' in `name`, or `none` (Python `name.rfind('.')`
returning -1 becomes `none`). -/
def rfind_dot (name : List Char) : Option Nat :=
  (name.reverse.findIdx? (fun c => c = '.')).map (fun j => name.length - 1 - j)

/-- Model of `pathlib.Path(s).suffix`: the extension of the final
component, empty unless the last '.' is at an interior position. -/
def pySuffix (s : List Char) : List Char :=
  let name := path_name s
  match rfind_dot name with
  | some i => if 0 < i ∧ i < name.length - 1 then name.drop i else []
  | none => []

/-! ### Model Gateway: `call_claude` (lib/paper_form.py:431-503) -/

/-- One attachment content block built by `call_claude`: a base64
`document` block for PDFs or an `image` block otherwise.  The base64 data
itself is not modelled; the media type drives every claim. -/
inductive AttachmentBlock where
  | document (media_type : List Char)
  | image (media_type : List Char)
deriving DecidableEq

/-- The media type carried by an attachment block. -/
def attachment_media (a : AttachmentBlock) : List Char :=
  match a with
  | .document m => m
  | .image m => m

/-- Source `media_type_map.get(extension, 'image/jpeg')`
(lib/paper_form.py:461-468): dictionary lookup with a default of
"image/jpeg" for every unmapped extension. -/
def media_type_lookup (extension : List Char) : List Char :=
  if extension = ".jpg".toList then "image/jpeg".toList
  else if extension = ".jpeg".toList then "image/jpeg".toList
  else if extension = ".png".toList then "image/png".toList
  else if extension = ".gif".toList then "image/gif".toList
  else if extension = ".webp".toList then "image/webp".toList
  else "image/jpeg".toList

/-- The attachment block `call_claude` builds from a file path:
`extension = Path(file_path).suffix.lower()`; ".pdf" becomes a document
block, everything else an image block with `media_type_lookup`. -/
def attachment_block (file_path : List Char) : AttachmentBlock :=
  let extension := pyLower (pySuffix file_path)
  if extension = ".pdf".toList then AttachmentBlock.document ("application/pdf".toList)
  else AttachmentBlock.image (media_type_lookup extension)

/-- A content block of the request message: the optional attachment
followed by the text prompt. -/
inductive ContentBlock where
  | attach (a : AttachmentBlock)
  | text (s : List Char)
deriving DecidableEq

/-- The `content` list `call_claude` assembles: the attachment block (when
`file_path` is given) followed by the text block. -/
def call_claude_content (prompt : List Char) (file_path : Option (List Char)) :
    List ContentBlock :=
  (match file_path with
   | some fp => [ContentBlock.attach (attachment_block fp)]
   | none => []) ++ [ContentBlock.text prompt]

/-- A value of the request-body dictionary. -/
inductive BodyVal where
  | str (s : List Char)
  | num (n : Nat)
  | msgs (ms : List (List Char × List ContentBlock))
deriving DecidableEq

/-- The `request_body` dictionary `call_claude` sends
(lib/paper_form.py:484-493), as an ordered key/value list: exactly
`anthropic_version`, `max_tokens` and `messages`; the single message has
role "user". -/
def call_claude_request_body (prompt : List Char) (file_path : Option (List Char)) :
    List (List Char × BodyVal) :=
  [("anthropic_version".toList, BodyVal.str ("bedrock-2023-05-31".toList)),
   ("max_tokens".toList, BodyVal.num 4000),
   ("messages".toList, BodyVal.msgs [("user".toList, call_claude_content prompt file_path)])]

/-- The keys of a request body, in order. -/
def request_keys (body : List (List Char × BodyVal)) : List (List Char) :=
  body.map Prod.fst

/-! ### Pipeline stages (lib/paper_form.py:530-571) -/

/-- A gateway invocation: the prompt text and the optional attachment
path handed to `call_claude`. -/
structure GatewayCall where
  prompt : List Char
  file_path : Option (List Char)
deriving DecidableEq

/-- The analyzer prompt of lib/paper_form.py:27-55, verbatim (the Python
triple-quoted literal, braces and apostrophes written as hex escapes). -/
def ANALYZER_PROMPT : String :=
  "\n" ++
  "You are analyzing a paper form image to extract field information for conversion to a digital form.\n" ++
  "\n" ++
  "For each input field you identify, provide:\n" ++
  "1. **label**: The exact text label as it appears on the form (or null if no label is present)\n" ++
  "2. **suggested_label**: A cleaned-up, standardized version of the label suitable for a digital form\n" ++
  "3. **type**: The most appropriate HTML input type (text, email, date, number, tel, url, textarea, file, checkbox, radio, select, etc.)\n" ++
  "\n" ++
  "Analyze the form systematically from top to bottom, left to right.\n" ++
  "\n" ++
  "Return your analysis as a JSON object with this structure:\n" ++
  "\x7b\n" ++
  "  \"fields\": [\n" ++
  "    \x7b\n" ++
  "      \"label\": \"string or null\",\n" ++
  "      \"suggested_label\": \"string\",\n" ++
  "      \"type\": \"string\"\n" ++
  "    \x7d\n" ++
  "  ]\n" ++
  "\x7d\n" ++
  "\n" ++
  "Important:\n" ++
  "- Treat each input field separately, even if they appear grouped (e.g., First Name and Last Name are two separate fields)\n" ++
  "- For suggested_label, use clear, concise labels following common form conventions\n" ++
  "- Infer the most appropriate input type based on the label, placeholder text, or visual format\n" ++
  "- Use standard HTML5 input types\n" ++
  "- Return ONLY valid JSON with no markdown code blocks, no explanations, no additional text\n" ++
  "- Your entire response must be a single valid JSON object and nothing else\n" ++
  ""

/-- The builder prompt of lib/paper_form.py:58-428, verbatim (the Python
triple-quoted literal, braces and apostrophes written as hex escapes). -/
def BUILDER_PROMPT : String :=
  "\n" ++
  "You are a helpful assistant. You have two functions:\n" ++
  "1. get current time\n" ++
  "2. generate form json\n" ++
  "\n" ++
  "for current time, just return a string with the current time. Nothing fancy\n" ++
  "\n" ++
  "For form json, your job is to help users create forms by generating a JSON array of form field objects. You must always respond with valid JSON, containing only an array of objects where each object represents a form field (or layout element like headers or dividers).\n" ++
  "You must return *ONLY* a JSON array - no extra text. Each object must contain fields based on the supported types listed below. All responses must follow the schema shown below.\n" ++
  "\n" ++
  "### Question construction\n" ++
  "**Supported Question Types**\n" ++
  "| Question Type | Description |\n" ++
  "|--------|--------|\n" ++
  "| header | A non-answerable header |\n" ++
  "| divider | A horizontal rule |\n" ++
  "| spacer | Blank space for visual layout |\n" ++
  "| section | Groups questions. Has a questions array attritbute. This can be used to visually put groups of questions together |\n" ++
  "| image | A static image display |\n" ++
  "| hyperlink | A clickable hyperlink |\n" ++
  "| signature | A field for signature capture |\n" ++
  "| stopwatch | A stopwatch timer with multiple tracked rows |\n" ++
  "| temperature | Temperature recording with history |\n" ++
  "| imageUpload | Upload an image |\n" ++
  "| rating | A 1-5 star rating input |\n" ++
  "| textShort | Short free-text answer |\n" ++
  "| textLong | Long free-text answer |\n" ++
  "| number | A numeric input |\n" ++
  "| tally | Used for counting up other questions\x27 points. Use groupIds for grouping |\n" ++
  "| radio | Single choice (radio buttons) |\n" ++
  "| checkbox | Multiple choice (checkboxes) |\n" ++
  "| select | Dropdown menu of choices (single choice) |\n" ++
  "| datePicker | Pick a calendar date |\n" ++
  "| timePicker | Pick a time of day |\n" ++
  "\n" ++
  "\n" ++
  "**General Attritubes**\n" ++
  "Each question will have these attributes that you can modify:\n" ++
  "| Key | type | Description |\n" ++
  "|--------|--------|--------|\n" ++
  "| title| string | the title of the qestion |\n" ++
  "| type| string | the type of question |\n" ++
  "| settings| object | a general catch-all for question settings |\n" ++
  "| options| object[] | options to a question. radio, checkbox, select & stopwatch all use options |\n" ++
  "| groupIds| string[] | an array of strings that group questions together. Two questions are in the same group if both of their groupIds include the same string |\n" ++
  "| required| boolean | is the question required to be filled out before the form can be submitted? |\n" ++
  "| enableComments| boolean | are comments enabled? |\n" ++
  "\n" ++
  "**General Question Settings**\n" ++
  "There are general settings that each question can use. They are optional\n" ++
  "| key | description | possible values |\n" ++
  "|--------|--------|--------|\n" ++
  "| color | the color of the question\x27s title | blue-low, blue-high, pink-low, pink-high, purple-low, purple-high, teal-low, teal-high, cyan-low, cyan-high, deep-orange-low, deep-orange-high, grey-low, grey-high, success-low, success-high, warning-low, warning-high, danger-low, danger-high |\n" ++
  "| size | the font size of the question\x27s title | small, medium, large |\n" ++
  "| weight | the font weight of the question\x27s title | normal, bold, lighter |\n" ++
  "\n" ++
  "**colors can ONLY be from the list above. No hex or rgb values will work. Only the words \"xx-low\" or \"xx-high\" **\n" ++
  "\n" ++
  "example:\n" ++
  "```\n" ++
  "settings: \x7b\n" ++
  "  \"color\": \"purple-low\",\n" ++
  "  \"size\": \"large\",\n" ++
  "  \"weight\": \"lighter\"\n" ++
  "\x7d\n" ++
  "```\n" ++
  "\n" ++
  "### Question JSON Output Examples\n" ++
  "**header**\n" ++
  "settings.headerType = header | subheader | description\n" ++
  "```\n" ++
  "\x7b\n" ++
  "  \"title\": \"Example header\",\n" ++
  "  \"type\": \"header\",\n" ++
  "  \"settings\": \x7b\n" ++
  "    \"headerType\": \"subheader\"\n" ++
  "  \x7d\n" ++
  "\x7d\n" ++
  "```\n" ++
  "\n" ++
  "**divider**\n" ++
  "```\n" ++
  "\x7b\n" ++
  "  \"title\": \"New Divider\",\n" ++
  "  \"type\": \"divider\"\n" ++
  "\x7d\n" ++
  "```\n" ++
  "\n" ++
  "**spacer**\n" ++
  "```\n" ++
  "\x7b\n" ++
  "  \"title\": \"New Spacer\",\n" ++
  "  \"type\": \"spacer\"\n" ++
  "\x7d\n" ++
  "```\n" ++
  "\n" ++
  "**image**\n" ++
  "```\n" ++
  "\x7b\n" ++
  "  \"title\": \"New Image Display\",\n" ++
  "  \"type\": \"image\",\n" ++
  "  \"settings\": \x7b\n" ++
  "    \"caption\": \"example caption\"\n" ++
  "  \x7d\n" ++
  "\x7d\n" ++
  "```\n" ++
  "\n" ++
  "**textShort**\n" ++
  "```\n" ++
  "\x7b\n" ++
  "  \"title\": \"New Short Answer\",\n" ++
  "  \"type\": \"textShort\"\n" ++
  "\x7d\n" ++
  "```\n" ++
  "\n" ++
  "**textLong**\n" ++
  "```\n" ++
  "\x7b\n" ++
  "  \"title\": \"New Long Answer\",\n" ++
  "  \"type\": \"textLong\"\n" ++
  "\x7d\n" ++
  "```\n" ++
  "\n" ++
  "**radio / select**\n" ++
  "radio and select use the options. Each option needs a title and can optionally have points and a follow up question\n" ++
  "```\n" ++
  "\x7b\n" ++
  "  \"title\": \"New Single Choice\",\n" ++
  "  \"type\": \"radio\",\n" ++
  "  \"options\": [\n" ++
  "    \x7b\n" ++
  "      \"title\": \"Option 1\"\n" ++
  "    \x7d,\n" ++
  "    \x7b\n" ++
  "      \"title\": \"Option 2\"\n" ++
  "    \x7d\n" ++
  "  ]\n" ++
  "\x7d\n" ++
  "\n" ++
  "// with points\n" ++
  "\x7b\n" ++
  "  \"title\": \"Will you get this correct?\",\n" ++
  "  \"type\": \"select\",\n" ++
  "  \"options\": [\n" ++
  "    \x7b\n" ++
  "      \"title\": \"Yes\",\n" ++
  "      \"points\": 5\n" ++
  "    \x7d,\n" ++
  "    \x7b\n" ++
  "      \"title\": \"No\"\n" ++
  "    \x7d\n" ++
  "  ]\n" ++
  "\x7d\n" ++
  "\n" ++
  "// with follow up question\n" ++
  "\x7b\n" ++
  "  \"title\": \"Will you get this correct?\",\n" ++
  "  \"type\": \"radio\",\n" ++
  "  \"options\": [\n" ++
  "    \x7b\n" ++
  "      \"title\": \"Yes\",\n" ++
  "      \"points\": 5\n" ++
  "    \x7d,\n" ++
  "    \x7b\n" ++
  "      \"title\": \"No\",\n" ++
  "      \"question\": \x7b\n" ++
  "        \"type\": \"textShort\",\n" ++
  "        \"title\": \"Explain yourself\"\n" ++
  "      \x7d\n" ++
  "    \x7d\n" ++
  "  ]\n" ++
  "\x7d\n" ++
  "```\n" ++
  "\n" ++
  "**checkbox**\n" ++
  "```\n" ++
  "\x7b\n" ++
  "  \"title\": \"New Multiple Choice\",\n" ++
  "  \"type\": \"checkbox\",\n" ++
  "  \"options\": [\n" ++
  "    \x7b\n" ++
  "      \"title\": \"Option 1\"\n" ++
  "    \x7d,\n" ++
  "    \x7b\n" ++
  "      \"title\": \"Option 2\"\n" ++
  "    \x7d\n" ++
  "  ]\n" ++
  "\x7d\n" ++
  "\n" ++
  "// checkbox with points and follow up\n" ++
  "\x7b\n" ++
  "  \"title\": \"What areas are dirty?\",\n" ++
  "  \"type\": \"checkbox\",\n" ++
  "  \"options\": [\n" ++
  "    \x7b\n" ++
  "      \"title\": \"None\",\n" ++
  "      \"points\": 3\n" ++
  "    \x7d,\n" ++
  "    \x7b\n" ++
  "      \"title\": \"Kitchen\",\n" ++
  "      \"question\": \x7b\n" ++
  "        \"type\": \"textShort\",\n" ++
  "        \"title\": \"What is dirty\"\n" ++
  "      \x7d\n" ++
  "    \x7d,\n" ++
  "    \x7b\n" ++
  "      \"title\": \"Bathroom\",\n" ++
  "      \"question\": \x7b\n" ++
  "        \"type\": \"textShort\",\n" ++
  "        \"title\": \"What is dirty\"\n" ++
  "      \x7d\n" ++
  "    \x7d\n" ++
  "  ]\n" ++
  "\x7d\n" ++
  "```\n" ++
  "\n" ++
  "**tally**\n" ++
  "```\n" ++
  "// example of a question and a tally counting the points for that question:\n" ++
  "[\n" ++
  "  \x7b\n" ++
  "    \"title\": \"New Single Choice\",\n" ++
  "    \"type\": \"radio\",\n" ++
  "    \"options\": [\n" ++
  "      \x7b\n" ++
  "        \"title\": \"Option 1\",\n" ++
  "        \"points\": 3\n" ++
  "      \x7d,\n" ++
  "      \x7b\n" ++
  "        \"title\": \"Option 2\"\n" ++
  "      \x7d\n" ++
  "    ],\n" ++
  "    \"groupIds\": [\n" ++
  "      \"51d3b82c-7d22-4bd6-9d97-dc0aa8af4a02\"\n" ++
  "    ]\n" ++
  "  \x7d,\n" ++
  "  \x7b\n" ++
  "    \"title\": \"Tally\",\n" ++
  "    \"type\": \"tally\",\n" ++
  "    \"groupIds\": [\n" ++
  "      \"51d3b82c-7d22-4bd6-9d97-dc0aa8af4a02\"\n" ++
  "    ]\n" ++
  "  \x7d\n" ++
  "]\n" ++
  "\n" ++
  "// example of a tally counting points for ALL questions in the form\n" ++
  "\x7b\n" ++
  "  \"title\": \"Tally\",\n" ++
  "  \"type\": \"tally\",\n" ++
  "  \"groupIds\": [\n" ++
  "    \"ALL\"\n" ++
  "  ]\n" ++
  "\x7d\n" ++
  "```\n" ++
  "\n" ++
  "**number**\n" ++
  "```\n" ++
  "// basic usage\n" ++
  "\x7b\n" ++
  "  \"title\": \"New Number\",\n" ++
  "  \"type\": \"number\",\n" ++
  "  \"settings\": \x7b\n" ++
  "    \"minMax\": false\n" ++
  "  \x7d\n" ++
  "\x7d\n" ++
  "\n" ++
  "// min/max - points are assigned if they are within this range\n" ++
  "\x7b\n" ++
  "  \"title\": \"New Number\",\n" ++
  "  \"type\": \"number\",\n" ++
  "  \"settings\": \x7b\n" ++
  "    \"minMax\": true,\n" ++
  "    \"points\": 5,\n" ++
  "    \"min\": 0,\n" ++
  "    \"max\": 100\n" ++
  "  \x7d\n" ++
  "\x7d\n" ++
  "\n" ++
  "// min/max - follow up. Follow ups are only shown if they are outside of the minmax range\n" ++
  "\x7b\n" ++
  "  \"title\": \"New Number\",\n" ++
  "  \"type\": \"number\",\n" ++
  "  \"settings\": \x7b\n" ++
  "    \"minMax\": true,\n" ++
  "    \"points\": 5,\n" ++
  "    \"min\": 0,\n" ++
  "    \"max\": 100\n" ++
  "  \x7d,\n" ++
  "  \"followUpQuestion\": \x7b\n" ++
  "    \"type\": \"textShort\",\n" ++
  "    \"title\": \"Follow Up for New Number\"\n" ++
  "  \x7d\n" ++
  "\x7d\n" ++
  "```\n" ++
  "\n" ++
  "**datePicker**\n" ++
  "```\n" ++
  "\x7b\n" ++
  "  \"title\": \"New Date Picker\",\n" ++
  "  \"type\": \"datePicker\"\n" ++
  "\x7d\n" ++
  "```\n" ++
  "\n" ++
  "**timePicker**\n" ++
  "```\n" ++
  "\x7b\n" ++
  "  \"title\": \"New Time Picker\",\n" ++
  "  \"type\": \"timePicker\"\n" ++
  "\x7d\n" ++
  "```\n" ++
  "\n" ++
  "**imageUpload**\n" ++
  "```\n" ++
  "\x7b\n" ++
  "  \"title\": \"New Image Upload\",\n" ++
  "  \"type\": \"imageUpload\"\n" ++
  "\x7d\n" ++
  "```\n" ++
  "\n" ++
  "**hyperlink**\n" ++
  "```\n" ++
  "\x7b\n" ++
  "  \"title\": \"New Hyperlink\",\n" ++
  "  \"type\": \"hyperlink\",\n" ++
  "  \"settings\": \x7b\n" ++
  "    \"label\": \"google\",\n" ++
  "    \"link\": \"https://www.google.com\"\n" ++
  "  \x7d\n" ++
  "\x7d\n" ++
  "```\n" ++
  "\n" ++
  "**signature**\n" ++
  "```\n" ++
  "\x7b\n" ++
  "  \"title\": \"New Signature\",\n" ++
  "  \"type\": \"signature\"\n" ++
  "\x7d\n" ++
  "```\n" ++
  "\n" ++
  "**section**\n" ++
  "```\n" ++
  "\x7b\n" ++
  "  \"title\": \"New Section\",\n" ++
  "  \"questions\": [\n" ++
  "    \x7b\n" ++
  "      \"title\": \"New Multiple Choice\",\n" ++
  "      \"type\": \"checkbox\",\n" ++
  "      \"options\": [\n" ++
  "        \x7b\n" ++
  "          \"title\": \"Option 1\"\n" ++
  "        \x7d,\n" ++
  "        \x7b\n" ++
  "          \"title\": \"Option 2\"\n" ++
  "        \x7d\n" ++
  "      ]\n" ++
  "    \x7d\n" ++
  "  ]\n" ++
  "\x7d\n" ++
  "\n" ++
  "```\n" ++
  "\n" ++
  "### Best Practices\n" ++
  "- if you have questions that can earn points, it is good practice to add a tally at the end of a group of questions, the section, or at the end of the whole form to count the points earned\n" ++
  "- points on questions are only used for non opinionated forms. Asking \"How are you?\" should not have points. Asking \"Is the kitchen clean?\" can have points.\n" ++
  "- groups of related questions should be colored the same to visually group them\n" ++
  "- Yes/No questions should always be a radio type\n" ++
  "- If a question answer is actionable, or needs more clarity, use a follow up (if the type supports it)\n" ++
  "- sections should only have questions that are related together. All questions in the section should have matching colors to visually group the section\n" ++
  "- a section should never be empty\n" ++
  "- A good form is short and concise. People filling out the forms generally do not have time to fill out a novel. The max number of questions is 50.\n" ++
  ""

/-- The gateway invocation made by `analyze_form` (lib/paper_form.py:542):
the analyzer prompt with the form image attached. -/
def analyze_form_call (image_path : List Char) : GatewayCall :=
  ⟨ANALYZER_PROMPT.toList, some image_path⟩

/-- What `analyze_form` does with the gateway's response text
(lib/paper_form.py:544-549): sanitize it in JSON mode and return the
resulting string.  The response is not parsed. -/
def analyze_form_process (response : List Char) : List Char :=
  clean_json_response response

/-- The prompt `build_json_form` assembles (lib/paper_form.py:564): the
builder prompt, a fixed connective line, and the field-specs string. -/
def build_json_form_prompt (field_specs_json : List Char) : List Char :=
  BUILDER_PROMPT.toList ++ "\n\nHere are the field specifications:\n\n".toList ++ field_specs_json

/-- The gateway invocation made by `build_json_form`
(lib/paper_form.py:566): text-only, no attachment. -/
def build_json_form_call (field_specs_json : List Char) : GatewayCall :=
  ⟨build_json_form_prompt field_specs_json, none⟩

/-- What `build_json_form` does with the gateway's response text
(lib/paper_form.py:569-571): sanitize it with the markup-mode cleaner and
return the resulting string.  The response is not parsed or validated. -/
def build_json_form_process (response : List Char) : List Char :=
  clean_html_response response

/-! ### HTTP routes (app.py) -/

/-- The upload extension whitelist of app.py:32. -/
def allowed_extensions : List (List Char) :=
  [".png".toList, ".jpg".toList, ".jpeg".toList, ".gif".toList, ".webp".toList, ".pdf".toList]

/-- The temp path app.py:44 saves an upload to:
`Path('./temp') / f"upload_{file.filename}"`. -/
def upload_temp_path (filename : List Char) : List Char :=
  "temp/upload_".toList ++ filename

/-- Control point reached by the `/image` route before any model work:
either an early HTTP 400 response, or the `convert_form` call on the
saved temp path (the only place a gateway call can happen). -/
inductive RouteStep where
  | response400 (error : List Char)
  | convert (temp_path : List Char)
deriving DecidableEq

/-- The `/image` route handler `from_image` (app.py:12-48) up to the
`convert_form` call: missing file, empty filename, and non-whitelisted
`Path(filename).suffix.lower()` each return 400 before anything else
runs.  (The "Allowed types" message interpolates a Python set whose
iteration order is unspecified; it is written here in literal order.) -/
def from_image_step (hasFile : Bool) (filename : List Char) : RouteStep :=
  if hasFile = false then
    RouteStep.response400 ("No file provided. Please upload a file with key \"file\"".toList)
  else if filename = [] then
    RouteStep.response400 ("No file selected".toList)
  else
    let file_ext := pyLower (pySuffix filename)
    if file_ext ∈ allowed_extensions then
      RouteStep.convert (upload_temp_path filename)
    else
      RouteStep.response400
        ("Invalid file type. Allowed types: .png, .jpg, .jpeg, .gif, .webp, .pdf".toList)

/-- Outcome of the `convert_form` call as seen by the route handler:
a returned form string, or a raised exception. -/
inductive ConvertOutcome where
  | ok (output : List Char)
  | raises (error : List Char)
deriving DecidableEq

/-- An HTTP response of the two conversion routes. -/
inductive HttpResponse where
  | ok200 (results : List Char)
  | err400 (error : List Char)
  | err500 (error : List Char)
deriving DecidableEq

/-- The `/image` route with its file-system effect (app.py:41-64).  The
file system is the set of existing paths, as a list.  `file.save` creates
the temp path; the `finally` block (`if temp_path.exists():
temp_path.unlink()`) removes it again before either the 200 or — via the
outer `except` — the 500 response is returned. -/
def from_image_run (hasFile : Bool) (filename : List Char) (outcome : ConvertOutcome)
    (fs : List (List Char)) : HttpResponse × List (List Char) :=
  match from_image_step hasFile filename with
  | RouteStep.response400 e => (HttpResponse.err400 e, fs)
  | RouteStep.convert temp_path =>
    let fs1 := temp_path :: fs
    let fs2 := fs1.filter (fun q => q != temp_path)
    match outcome with
    | ConvertOutcome.ok out => (HttpResponse.ok200 out, fs2)
    | ConvertOutcome.raises e => (HttpResponse.err500 e, fs2)

/-- The `/link` route after `screenshot_url` has captured its screenshot
(app.py:92-107): run `convert_form` on the screenshot path, and in the
`finally` block delete the screenshot before the 200 or 500 response.
(The earlier missing/empty-URL checks return 400 without touching the
file system.) -/
def from_url_run (screenshot_path : List Char) (outcome : ConvertOutcome)
    (fs : List (List Char)) : HttpResponse × List (List Char) :=
  let fs2 := fs.filter (fun q => q != screenshot_path)
  match outcome with
  | ConvertOutcome.ok out => (HttpResponse.ok200 out, fs2)
  | ConvertOutcome.raises e => (HttpResponse.err500 e, fs2)

theorem drop_length_append {α : Type} (l₁ l₂ : List α) :
    (l₁ ++ l₂).drop l₁.length = l₂ := by
  induction l₁ with
  | nil => rfl
  | cons a as ih => simp [ih]

theorem take_length_append {α : Type} (l₁ l₂ : List α) :
    (l₁ ++ l₂).take l₁.length = l₁ := by
  induction l₁ with
  | nil => rfl
  | cons a as ih => simp [ih]

theorem ite_false_bool {α : Type} {b : Bool} (h : b = false) (x y : α) :
    (if b then x else y) = y := by
  subst h
  rfl

theorem ite_true_bool {α : Type} {b : Bool} (h : b = true) (x y : α) :
    (if b then x else y) = x := by
  subst h
  rfl

theorem pyStrip_clean_json (x : List Char) :
    pyStrip (clean_json_response x) = clean_json_response x := by
  simp only [clean_json_response]
  exact pyStrip_idem _

theorem pyStrip_clean_html (x : List Char) :
    pyStrip (clean_html_response x) = clean_html_response x := by
  simp only [clean_html_response]
  exact pyStrip_idem _

theorem clean_json_eq_self (y : List Char) (h0 : pyStrip y = y)
    (h1 : ("```".toList).isPrefixOf y = false)
    (h2 : ("```".toList).isSuffixOf y = false) :
    clean_json_response y = y := by
  have hj : ("```json".toList).isPrefixOf y = false := by
    have e : ("```json".toList) = "```".toList ++ "json".toList := by decide
    rw [e]
    exact not_isPrefixOf_of_append _ _ _ h1
  simp only [clean_json_response, h0]
  simp only [ite_false_bool hj, ite_false_bool h1, ite_false_bool h2]
  exact h0

theorem clean_html_eq_self (y : List Char) (h0 : pyStrip y = y)
    (h1 : ("```".toList).isPrefixOf y = false)
    (h2 : ("```".toList).isSuffixOf y = false) :
    clean_html_response y = y := by
  have hj : ("```html".toList).isPrefixOf y = false := by
    have e : ("```html".toList) = "```".toList ++ "html".toList := by decide
    rw [e]
    exact not_isPrefixOf_of_append _ _ _ h1
  simp only [clean_html_response, h0]
  simp only [ite_false_bool hj, ite_false_bool h1, ite_false_bool h2]
  exact h0

theorem clean_json_strips_tagged_fence (p : List Char) :
    clean_json_response ("```json".toList ++ p ++ "```".toList) = pyStrip p := by
  have hstrip : pyStrip ("```json".toList ++ p ++ "```".toList) =
      "```json".toList ++ p ++ "```".toList := by
    apply pyStrip_eq_self
    · intro c hc
      have hh : ("```json".toList ++ p ++ "```".toList).head? = some '`' := rfl
      rw [hh] at hc
      cases hc
      decide
    · intro c hc
      rw [getLast?_append_ne _ _ (by decide)] at hc
      have hl : ("```".toList : List Char).getLast? = some '`' := by decide
      rw [hl] at hc
      cases hc
      decide
  have hc1 : ("```json".toList).isPrefixOf ("```json".toList ++ p ++ "```".toList) = true := by
    rw [List.append_assoc]
    exact isPrefixOf_append_self _ _
  have hdrop : ("```json".toList ++ p ++ "```".toList).drop 7 = p ++ "```".toList := by
    rw [List.append_assoc]
    have h7 : (7 : Nat) = ("```json".toList).length := by decide
    rw [h7, drop_length_append]
  have hc3 : ("```".toList).isSuffixOf (p ++ "```".toList) = true :=
    isSuffixOf_append_self _ _
  have htake : (p ++ "```".toList).take ((p ++ "```".toList).length - 3) = p := by
    have hlen : (p ++ "```".toList).length = p.length + 3 := by
      rw [List.length_append]
      rfl
    rw [hlen, Nat.add_sub_cancel, take_length_append]
  simp only [clean_json_response, hstrip]
  simp only [ite_true_bool hc1, hdrop, ite_true_bool hc3, htake]

/-- C1 (corrected, counterexample): a sanitized model response carrying a
Question whose type is the unrecognized string "bogus" is returned by the
schema-builder stage exactly as-is, with no `SchemaValidationError`; a
response that is not JSON at all is likewise returned with no
`SchemaParseError`. -/
theorem build_json_form_bogus_type_counterexample :
    build_json_form_process ("[\x7b\"type\": \"bogus\"\x7d]".toList) =
      "[\x7b\"type\": \"bogus\"\x7d]".toList ∧
    build_json_form_process ("not a json array".toList) = "not a json array".toList := by
  decide

/-- C1 (amended): `build_json_form` neither parses nor validates the model
response: every response that is already stripped and carries no fence
marker is returned verbatim as the stage's successful result — malformed
JSON and unrecognized question types included — and is never repaired. -/
theorem build_json_form_returns_unvalidated (response : List Char)
    (h0 : pyStrip response = response)
    (h1 : ("```".toList).isPrefixOf response = false)
    (h2 : ("```".toList).isSuffixOf response = false) :
    build_json_form_process response = response :=
  clean_html_eq_self _ h0 h1 h2

/-- C1 witness: the amended theorem applied to the bogus-typed payload. -/
theorem build_json_form_returns_unvalidated_witness :
    build_json_form_process ("[\x7b\"type\": \"bogus\"\x7d]".toList) =
      "[\x7b\"type\": \"bogus\"\x7d]".toList :=
  build_json_form_returns_unvalidated _ (by decide) (by decide) (by decide)

/-- C2 (corrected, counterexample): a sanitized model response that is not
valid JSON, and one that is valid JSON without a `fields` array, are both
returned by `analyze_form` as its result string — no
`ExtractionParseError` is raised. -/
theorem analyze_form_malformed_json_counterexample :
    analyze_form_process ("this is not json".toList) = "this is not json".toList ∧
    analyze_form_process ("\x7b\"data\": []\x7d".toList) = "\x7b\"data\": []\x7d".toList := by
  decide

/-- C2 (amended): `analyze_form` does not parse the sanitized response at
all: every response that is already stripped and carries no fence marker
is returned verbatim as the extraction result, whether or not it is valid
JSON with a `fields` array. -/
theorem analyze_form_returns_unparsed (response : List Char)
    (h0 : pyStrip response = response)
    (h1 : ("```".toList).isPrefixOf response = false)
    (h2 : ("```".toList).isSuffixOf response = false) :
    analyze_form_process response = response :=
  clean_json_eq_self _ h0 h1 h2

/-- C2 witness: the amended theorem applied to a non-JSON response. -/
theorem analyze_form_returns_unparsed_witness :
    analyze_form_process ("plain text response".toList) = "plain text response".toList :=
  analyze_form_returns_unparsed _ (by decide) (by decide) (by decide)

/-- C3 (corrected, counterexample): neither sanitizer is idempotent on the
doubly fenced input of six backticks, "x", six backticks: one application
yields three backticks, "x", three backticks, and a second application
strips further. -/
theorem sanitizer_idempotence_counterexample :
    clean_json_response (clean_json_response ("``````x``````".toList)) ≠
      clean_json_response ("``````x``````".toList) ∧
    clean_html_response (clean_html_response ("``````x``````".toList)) ≠
      clean_html_response ("``````x``````".toList) := by
  decide

/-- C3 (amended): each sanitizer is idempotent on every input whose
sanitized output neither begins nor ends with a fence marker; only when
the output itself still carries a fence (nested fences) does a second
application strip further. -/
theorem sanitizers_idem_on_fence_free_output :
    (∀ x : List Char,
      ("```".toList).isPrefixOf (clean_json_response x) = false →
      ("```".toList).isSuffixOf (clean_json_response x) = false →
      clean_json_response (clean_json_response x) = clean_json_response x) ∧
    (∀ x : List Char,
      ("```".toList).isPrefixOf (clean_html_response x) = false →
      ("```".toList).isSuffixOf (clean_html_response x) = false →
      clean_html_response (clean_html_response x) = clean_html_response x) :=
  ⟨fun x h1 h2 => clean_json_eq_self _ (pyStrip_clean_json x) h1 h2,
   fun x h1 h2 => clean_html_eq_self _ (pyStrip_clean_html x) h1 h2⟩

/-- C3 witness: idempotence at singly fenced inputs. -/
theorem sanitizers_idem_witness :
    clean_json_response (clean_json_response ("```json\nhi\n```".toList)) =
      clean_json_response ("```json\nhi\n```".toList) ∧
    clean_html_response (clean_html_response ("```html\nok\n```".toList)) =
      clean_html_response ("```html\nok\n```".toList) :=
  ⟨sanitizers_idem_on_fence_free_output.1 _ (by decide) (by decide),
   sanitizers_idem_on_fence_free_output.2 _ (by decide) (by decide)⟩

/-- C4 (corrected, counterexample): the JSON-mode sanitizer does not
tolerate an arbitrary declared-language tag: on a payload fenced with an
"html"-tagged marker it drops only the backticks and leaves the tag text
in the payload. -/
theorem clean_json_tagged_marker_counterexample :
    clean_json_response ("```html\n\x7b\"a\":1\x7d\n```".toList) =
      "html\n\x7b\"a\":1\x7d".toList ∧
    clean_json_response ("```html\n\x7b\"a\":1\x7d\n```".toList) ≠
      "\x7b\"a\":1\x7d".toList := by
  decide

/-- C4 (amended): `clean_json_response` strips exactly one leading
"```json"-tagged marker and one trailing "```" marker and trims
whitespace — for every payload `p`, sanitizing "```json" ++ p ++ "```"
yields `pyStrip p`, and the spec's concrete example holds — but a tag
other than "json" is not removed with its marker: only the backticks are
dropped and the tag text stays in the payload. -/
theorem clean_json_fence_stripping :
    (∀ p : List Char,
      clean_json_response ("```json".toList ++ p ++ "```".toList) = pyStrip p) ∧
    clean_json_response ("```json\n\x7b\"a\":1\x7d\n```".toList) = "\x7b\"a\":1\x7d".toList ∧
    clean_json_response ("```html\npayload\n```".toList) = "html\npayload".toList :=
  ⟨clean_json_strips_tagged_fence, by decide, by decide⟩

/-- C5 (corrected, counterexample): `build_json_form` does not sanitize in
JSON mode: on a gateway response fenced with a "```json" marker its
markup-mode cleaner and the JSON-mode cleaner disagree — the stage keeps
the "json" tag text in the payload. -/
theorem build_json_form_sanitizer_mode_counterexample :
    build_json_form_process ("```json\n[1]\n```".toList) ≠
      clean_json_response ("```json\n[1]\n```".toList) ∧
    build_json_form_process ("```json\n[1]\n```".toList) = "json\n[1]".toList := by
  decide

/-- C5 (amended): `build_json_form` calls the gateway with no attachment
and with the builder prompt followed by a fixed connective line and the
serialized field specs, but it applies the markup-mode sanitizer
`clean_html_response` — not the JSON-mode one — to the response. -/
theorem build_json_form_call_shape :
    (∀ specs : List Char,
      build_json_form_call specs =
        ⟨BUILDER_PROMPT.toList ++ "\n\nHere are the field specifications:\n\n".toList ++ specs,
         none⟩) ∧
    (∀ response : List Char,
      build_json_form_process response = clean_html_response response) :=
  ⟨fun _ => rfl, fun _ => rfl⟩

/-- Extensions that `call_claude` maps to a specific media kind: ".pdf"
plus the keys of `media_type_map`. -/
def supported_attachment_exts : List (List Char) :=
  [".pdf".toList, ".jpg".toList, ".jpeg".toList, ".png".toList, ".gif".toList, ".webp".toList]

theorem media_type_lookup_mem (e : List Char) :
    media_type_lookup e ∈
      ["image/jpeg".toList, "image/png".toList, "image/gif".toList, "image/webp".toList] := by
  unfold media_type_lookup
  repeat' split
  all_goals decide

theorem media_type_lookup_default (e : List Char)
    (h : e ∉ supported_attachment_exts) : media_type_lookup e = "image/jpeg".toList := by
  have h1 : ¬ (e = ".jpg".toList) := fun he => h (by rw [he]; decide)
  have h2 : ¬ (e = ".jpeg".toList) := fun he => h (by rw [he]; decide)
  have h3 : ¬ (e = ".png".toList) := fun he => h (by rw [he]; decide)
  have h4 : ¬ (e = ".gif".toList) := fun he => h (by rw [he]; decide)
  have h5 : ¬ (e = ".webp".toList) := fun he => h (by rw [he]; decide)
  unfold media_type_lookup
  rw [if_neg h1, if_neg h2, if_neg h3, if_neg h4, if_neg h5]

/-- C6 (corrected, counterexample): an attachment whose extension ".exe"
maps to no supported media kind is not rejected: `call_claude` builds an
image block with the default media type "image/jpeg" and sends it to the
model. -/
theorem attachment_unsupported_ext_counterexample :
    attachment_block ("malware.exe".toList) =
      AttachmentBlock.image ("image/jpeg".toList) := by
  decide

/-- C6 (amended): the media kind of every attachment block is one of the
five supported kinds, but an extension mapping to no supported media kind
is not rejected with `UnsupportedMediaKind`: the dictionary lookup's
default silently labels the attachment "image/jpeg" and it is sent to the
model. -/
theorem attachment_media_kind_default (file_path : List Char) :
    attachment_media (attachment_block file_path) ∈
      ["image/jpeg".toList, "image/png".toList, "image/gif".toList,
       "image/webp".toList, "application/pdf".toList] ∧
    (pyLower (pySuffix file_path) ∉ supported_attachment_exts →
      attachment_block file_path = AttachmentBlock.image ("image/jpeg".toList)) := by
  constructor
  · simp only [attachment_block]
    split
    · decide
    · simp only [attachment_media]
      have := media_type_lookup_mem (pyLower (pySuffix file_path))
      simp only [List.mem_cons, List.mem_singleton] at this ⊢
      tauto
  · intro h
    have hpdf : ¬ (pyLower (pySuffix file_path) = ".pdf".toList) :=
      fun he => h (by rw [he]; decide)
    simp only [attachment_block]
    rw [if_neg hpdf, media_type_lookup_default _ h]

/-- C6 witness: the amended theorem applied to an ".exe" attachment. -/
theorem attachment_media_kind_default_witness :
    attachment_media (attachment_block ("malware.exe".toList)) ∈
      ["image/jpeg".toList, "image/png".toList, "image/gif".toList,
       "image/webp".toList, "application/pdf".toList] ∧
    attachment_block ("malware.exe".toList) =
      AttachmentBlock.image ("image/jpeg".toList) :=
  ⟨(attachment_media_kind_default _).1,
   (attachment_media_kind_default _).2 (by decide)⟩

theorem from_image_step_convert_path (hasFile : Bool) (filename temp_path : List Char)
    (h : from_image_step hasFile filename = RouteStep.convert temp_path) :
    temp_path = upload_temp_path filename := by
  simp only [from_image_step] at h
  by_cases h1 : hasFile = false
  · rw [if_pos h1] at h
    exact absurd h (by simp)
  · rw [if_neg h1] at h
    by_cases h2 : filename = []
    · rw [if_pos h2] at h
      exact absurd h (by simp)
    · rw [if_neg h2] at h
      by_cases h3 : pyLower (pySuffix filename) ∈ allowed_extensions
      · rw [if_pos h3] at h
        injection h with h'
        exact h'.symm
      · rw [if_neg h3] at h
        exact absurd h (by simp)

/-- C7: an upload whose lowercased filename extension is outside the
whitelist {.png, .jpg, .jpeg, .gif, .webp, .pdf} is answered with an HTTP
400 response before the conversion pipeline — and with it any gateway
call — is reached. -/
theorem from_image_rejects_unsupported_ext (hasFile : Bool) (filename : List Char)
    (h : pyLower (pySuffix filename) ∉ allowed_extensions) :
    (∃ e, from_image_step hasFile filename = RouteStep.response400 e) ∧
    (∀ p, from_image_step hasFile filename ≠ RouteStep.convert p) := by
  have hmain : ∃ e, from_image_step hasFile filename = RouteStep.response400 e := by
    simp only [from_image_step]
    by_cases h1 : hasFile = false
    · rw [if_pos h1]
      exact ⟨_, rfl⟩
    · rw [if_neg h1]
      by_cases h2 : filename = []
      · rw [if_pos h2]
        exact ⟨_, rfl⟩
      · rw [if_neg h2]
        rw [if_neg h]
        exact ⟨_, rfl⟩
  refine ⟨hmain, ?_⟩
  rcases hmain with ⟨e, he⟩
  intro p hp
  rw [he] at hp
  exact RouteStep.noConfusion hp

/-- C7 witness: the theorem applied to an ".exe" upload. -/
theorem from_image_rejects_unsupported_ext_witness :
    (∃ e, from_image_step true ("malware.exe".toList) = RouteStep.response400 e) ∧
    (∀ p, from_image_step true ("malware.exe".toList) ≠ RouteStep.convert p) :=
  from_image_rejects_unsupported_ext true _ (by decide)

/-- C9: the upload extension check is case-insensitive: every non-empty
filename whose suffix lowercases into the whitelist passes the check and
proceeds to conversion of the saved temp file rather than being rejected
with HTTP 400. -/
theorem from_image_accepts_uppercase_ext (filename : List Char)
    (hne : filename ≠ [])
    (h : pyLower (pySuffix filename) ∈ allowed_extensions) :
    from_image_step true filename = RouteStep.convert (upload_temp_path filename) := by
  simp only [from_image_step]
  rw [if_neg (by decide : ¬ (true = false)), if_neg hne, if_pos h]

/-- C9 witness: the theorem applied to the uppercase-extension filename
"form.PNG". -/
theorem from_image_accepts_uppercase_ext_witness :
    from_image_step true ("form.PNG".toList) =
      RouteStep.convert (upload_temp_path ("form.PNG".toList)) :=
  from_image_accepts_uppercase_ext _ (by decide) (by decide)

/-- C10: per-request temp files do not survive the request: on the
`/image` route the saved upload is absent from the file system in the
state paired with the response, and on the `/link` route the captured
screenshot is absent — both when `convert_form` returns and when it
raises. -/
theorem temp_files_removed_before_response :
    (∀ (hasFile : Bool) (filename : List Char) (outcome : ConvertOutcome)
        (fs : List (List Char)),
      upload_temp_path filename ∉ fs →
      upload_temp_path filename ∉ (from_image_run hasFile filename outcome fs).2) ∧
    (∀ (screenshot_path : List Char) (outcome : ConvertOutcome) (fs : List (List Char)),
      screenshot_path ∉ (from_url_run screenshot_path outcome fs).2) := by
  constructor
  · intro hf fn oc fs hnot
    unfold from_image_run
    cases hstep : from_image_step hf fn with
    | response400 e =>
      simpa using hnot
    | convert tp =>
      have htp := from_image_step_convert_path _ _ _ hstep
      subst htp
      cases oc <;> simp [List.mem_filter]
  · intro sp oc fs
    unfold from_url_run
    cases oc <;> simp [List.mem_filter]

/-- C10 witness: the theorem applied to a concrete upload whose conversion
raises and a concrete screenshot whose conversion succeeds. -/
theorem temp_files_removed_before_response_witness :
    upload_temp_path ("form.png".toList) ∉
      (from_image_run true ("form.png".toList)
        (ConvertOutcome.raises ("boom".toList)) []).2 ∧
    "temp/shot.png".toList ∉
      (from_url_run ("temp/shot.png".toList) (ConvertOutcome.ok ("[]".toList))
        ["temp/shot.png".toList]).2 :=
  ⟨temp_files_removed_before_response.1 true _ _ [] (by simp),
   temp_files_removed_before_response.2 _ _ _⟩

/-- C8 (corrected, counterexample): the request `call_claude` sends for a
text-only pipeline invocation carries exactly the keys
`anthropic_version`, `max_tokens` and `messages` — no deadline or timeout
of any kind accompanies the call. -/
theorem call_claude_no_deadline_counterexample :
    request_keys (call_claude_request_body ("analyze".toList) none) =
      ["anthropic_version".toList, "max_tokens".toList, "messages".toList] ∧
    "timeout".toList ∉ request_keys (call_claude_request_body ("analyze".toList) none) ∧
    "deadline".toList ∉ request_keys (call_claude_request_body ("analyze".toList) none) := by
  decide

/-- C8 (amended): no gateway call in the conversion pipeline is wrapped by
a caller-supplied deadline: for every prompt and attachment the request
body holds exactly `anthropic_version`, `max_tokens` and `messages`, and
`call_claude` accepts no deadline argument, so a slow model response is
waited on indefinitely rather than surfacing a `GatewayTimeout`. -/
theorem call_claude_request_keys_fixed (prompt : List Char) (file_path : Option (List Char)) :
    request_keys (call_claude_request_body prompt file_path) =
      ["anthropic_version".toList, "max_tokens".toList, "messages".toList] :=
  rfl
